import Mathlib

/-!
Shallow embedding of the scheduling and execution core of the Cron-Scheduler
repository (src/app), covering the pieces that the verified claims touch:

* the error taxonomy and run/schedule status enumerations (app/models.py);
* the pure classifier functions and the backoff formula (app/executor.py);
* the retry loop of HttpExecutor.execute_run, modelled as a fold over the
  sequence of attempt outcomes delivered by the environment (app/executor.py);
* a single attempt as built by HttpExecutor._execute_attempt, with the
  wall-clock instants it reads injected as parameters (app/executor.py);
* response-body truncation of HttpExecutor._safe_read_body, including the
  Python int() parse of the Content-Length header and the exception path
  that returns None (app/executor.py);
* the idempotency-key construction and duplicate check of
  SchedulerEngine._execute_schedule, the orphan-run sweep of
  SchedulerEngine._recover_orphaned_runs, and SchedulerEngine.resume_schedule
  with its attribute lookup failure modelled as an Except error
  (app/scheduler.py);
* the truthiness-based defaulting of HttpExecutor.__init__ (app/executor.py
  together with the defaults of app/config.py).

Machine floats that only ever scale by powers of two and compare are modelled
as rationals; datetimes are modelled as explicit field records.
-/

namespace CronScheduler

/-- Error classification, app/models.py ErrorType. -/
inductive ErrorType where
  | none
  | timeout
  | dns
  | connection
  | ssl
  | client_error
  | server_error
  | unknown
deriving Repr, DecidableEq

/-- Run execution status, app/models.py RunStatus. -/
inductive RunStatus where
  | pending
  | running
  | success
  | failed
  | timeout
deriving Repr, DecidableEq

/-- Schedule status, app/models.py ScheduleStatus. -/
inductive ScheduleStatus where
  | active
  | paused
  | expired
  | deleted
deriving Repr, DecidableEq

/-- classify_status_code from app/executor.py: bucket an HTTP status code. -/
def classify_status_code (status_code : Int) : ErrorType :=
  if 200 ≤ status_code ∧ status_code < 400 then ErrorType.none
  else if 400 ≤ status_code ∧ status_code < 500 then ErrorType.client_error
  else if 500 ≤ status_code ∧ status_code < 600 then ErrorType.server_error
  else ErrorType.unknown

/-- calculate_backoff_delay from app/executor.py:
min(base_delay * 2 ** (attempt_num - 1), max_delay).  The Python 2 ** k is
exact also for negative k (a binary float), so rationals with zpow model it. -/
def calculate_backoff_delay (attempt_num : Int) (base_delay : Rat)
    (max_delay : Rat) : Rat :=
  min (base_delay * (2 : Rat) ^ (attempt_num - 1)) max_delay

/-- One attempt row as the executor sees it back; app/models.py Attempt,
restricted to the fields app code reads or writes.  Times are rationals in
seconds. -/
structure AttemptRow where
  attempt_number : Nat := 1
  started_at : Rat := 0
  completed_at : Option Rat := Option.none
  latency_ms : Option Rat := Option.none
  status_code : Option Int := Option.none
  response_body : Option String := Option.none
  error_type : ErrorType := ErrorType.none
  error_message : Option String := Option.none
deriving Repr, DecidableEq

/-- The Run fields that HttpExecutor.execute_run reads and writes;
app/models.py Run. -/
structure RunState where
  status : RunStatus := RunStatus.pending
  started_at : Option Rat := Option.none
  completed_at : Option Rat := Option.none
  attempt_count : Nat := 0
  final_status_code : Option Int := Option.none
  final_error_type : ErrorType := ErrorType.none
  final_error_message : Option String := Option.none
deriving Repr, DecidableEq

/-- The retry loop body of HttpExecutor.execute_run (app/executor.py lines
127-162).  `outcome n` is the Attempt the environment produces for attempt
number n; `remaining` counts the loop iterations still allowed, so the loop
is entered with `remaining = max_retries.toNat` and `attemptNum = 1`.
Returns the run state at loop exit together with last_attempt. -/
def runLoop (outcome : Nat → AttemptRow) :
    Nat → Nat → RunState → Option AttemptRow → RunState × Option AttemptRow
  | 0, _, run, last => (run, last)
  | remaining + 1, attemptNum, run, _ =>
    let a := outcome attemptNum
    let run1 := { run with attempt_count := attemptNum }
    if a.error_type = ErrorType.none then
      ({ run1 with
           status := RunStatus.success,
           final_status_code := a.status_code,
           final_error_type := ErrorType.none }, some a)
    else if a.error_type = ErrorType.client_error then
      ({ run1 with
           status := RunStatus.failed,
           final_status_code := a.status_code,
           final_error_type := a.error_type,
           final_error_message := a.error_message }, some a)
    else
      runLoop outcome remaining (attemptNum + 1) run1 (some a)

/-- HttpExecutor.execute_run (app/executor.py lines 113-180).  `maxRetries`
is self.max_retries (an int; Python range(1, n+1) is empty for n ≤ 0, which
Int.toNat matches); `tStart`/`tEnd` are the two utcnow() readings; `outcome`
gives the Attempt produced for each attempt number. -/
def execute_run (maxRetries : Int) (tStart tEnd : Rat)
    (outcome : Nat → AttemptRow) : RunState :=
  let run0 : RunState :=
    { status := RunStatus.running, started_at := some tStart }
  let res := runLoop outcome maxRetries.toNat 1 run0 Option.none
  let run1 := res.1
  let run2 :=
    if run1.status = RunStatus.running then
      match res.2 with
      | some la =>
        { run1 with
            status := if la.error_type = ErrorType.timeout then
                RunStatus.timeout else RunStatus.failed,
            final_status_code := la.status_code,
            final_error_type := la.error_type,
            final_error_message := la.error_message }
      | Option.none => { run1 with status := RunStatus.failed }
    else run1
  { run2 with completed_at := some tEnd }

/-- Whether `pat` occurs at the start of `hay` (character lists). -/
def strStarts : List Char → List Char → Bool
  | _, [] => true
  | [], _ :: _ => false
  | a :: as, b :: bs => a == b && strStarts as bs

/-- Whether `pat` occurs anywhere inside `hay`; models the Python
`pat in hay` substring test on character lists. -/
def hasSub : List Char → List Char → Bool
  | [], pat => strStarts [] pat
  | c :: t, pat => strStarts (c :: t) pat || hasSub t pat

/-- Python str.lower restricted to the ASCII case mapping. -/
def lowerStr (s : String) : String := s.map Char.toLower

/-- The exceptions httpx raises that classify_error distinguishes, each
carrying str(exception); app/executor.py classify_error inputs. -/
inductive PyExc where
  | timeoutExc (msg : String)
  | connectError (msg : String)
  | httpStatusError (code : Int) (msg : String)
  | other (msg : String)
deriving Repr, DecidableEq

/-- Fallback tail of classify_error (app/executor.py lines 53-56): the
SSL/certificate message sniff, else UNKNOWN. -/
def classify_error_fallback (msg : String) : ErrorType × String :=
  if hasSub (lowerStr msg).data "ssl".data ||
      hasSub (lowerStr msg).data "certificate".data then
    (ErrorType.ssl, "SSL/TLS error: " ++ msg)
  else
    (ErrorType.unknown, "Unknown error: " ++ msg)

/-- classify_error from app/executor.py lines 31-56. -/
def classify_error : PyExc → ErrorType × String
  | PyExc.timeoutExc msg => (ErrorType.timeout, "Request timed out: " ++ msg)
  | PyExc.connectError msg =>
    let lo := (lowerStr msg).data
    if hasSub lo "name or service not known".data || hasSub lo "dns".data then
      (ErrorType.dns, "DNS resolution failed: " ++ msg)
    else if hasSub lo "ssl".data || hasSub lo "certificate".data then
      (ErrorType.ssl, "SSL/TLS error: " ++ msg)
    else
      (ErrorType.connection, "Connection failed: " ++ msg)
  | PyExc.httpStatusError code msg =>
    if 400 ≤ code ∧ code < 500 then
      (ErrorType.client_error, "Client error " ++ toString code ++ ": " ++ msg)
    else if 500 ≤ code ∧ code < 600 then
      (ErrorType.server_error, "Server error " ++ toString code ++ ": " ++ msg)
    else classify_error_fallback msg
  | PyExc.other msg => classify_error_fallback msg

/-- MAX_RESPONSE_BODY_SIZE from app/executor.py (100 KiB). -/
def MAX_RESPONSE_BODY_SIZE : Nat := 100 * 1024

/-- Digit-string accumulator for the Python int() model. -/
def parseNatGo : Nat → List Char → Option Nat
  | acc, [] => some acc
  | acc, c :: cs =>
    if c.isDigit then parseNatGo (acc * 10 + (c.toNat - 48)) cs
    else Option.none

/-- Nonempty all-digit character list to a natural number. -/
def parseNatDigits : List Char → Option Nat
  | [] => Option.none
  | c :: cs => parseNatGo 0 (c :: cs)

/-- Model of Python int(s) on header-style strings: an optional sign followed
by decimal digits; anything else raises ValueError, modelled as none. -/
def pyInt (s : String) : Option Int :=
  match s.data with
  | [] => Option.none
  | '-' :: rest => (parseNatDigits rest).map (fun n => -(n : Int))
  | '+' :: rest => (parseNatDigits rest).map (fun n => (n : Int))
  | cs => (parseNatDigits cs).map (fun n => (n : Int))

/-- The body-length branch of _safe_read_body (app/executor.py lines
298-301): truncate the decoded text at the cap. -/
def truncateBody (body : String) : Option String :=
  if body.length > MAX_RESPONSE_BODY_SIZE then
    some (body.take MAX_RESPONSE_BODY_SIZE ++ "\n[...truncated...]")
  else some body

/-- HttpExecutor._safe_read_body (app/executor.py lines 285-305).
`contentLength` is the raw content-length header if present, `bodyText` the
decoded response text.  A failing int() parse raises ValueError, which the
surrounding except swallows into None. -/
def safe_read_body (contentLength : Option String) (bodyText : String) :
    Option String :=
  match contentLength with
  | Option.none => truncateBody bodyText
  | some cl =>
    if cl = "" then truncateBody bodyText
    else
      match pyInt cl with
      | Option.none => Option.none
      | some n =>
        if n > (MAX_RESPONSE_BODY_SIZE : Int) then
          some ("[Response truncated - size " ++ cl ++
            " bytes exceeds limit]")
        else truncateBody bodyText

/-- What the HTTP request inside one attempt produced: either a response
(status code, raw content-length header, decoded text) or an exception. -/
inductive HttpResult where
  | ok (statusCode : Int) (contentLength : Option String) (bodyText : String)
  | exc (e : PyExc)
deriving Repr, DecidableEq

/-- HttpExecutor._execute_attempt (app/executor.py lines 182-262) restricted
to the fields the claims read.  `t0` is the utcnow() stored as
Attempt.started_at at row construction; `t1` is the start_time utcnow() taken
just before the request; `t2` is the utcnow() at the end of the try block
(end_time on a response, the exception instant otherwise). -/
def execute_attempt (n : Nat) (t0 t1 t2 : Rat) (res : HttpResult) :
    AttemptRow :=
  match res with
  | HttpResult.ok code cl body =>
    { attempt_number := n
      started_at := t0
      completed_at := some t2
      latency_ms := some ((t2 - t1) * 1000)
      status_code := some code
      response_body := safe_read_body cl body
      error_type :=
        if 200 ≤ code ∧ code < 400 then ErrorType.none
        else classify_status_code code
      error_message :=
        if 200 ≤ code ∧ code < 400 then Option.none
        else some ("HTTP " ++ toString code) }
  | HttpResult.exc e =>
    { attempt_number := n
      started_at := t0
      completed_at := some t2
      latency_ms := Option.none
      status_code := Option.none
      response_body := Option.none
      error_type := (classify_error e).1
      error_message := some (classify_error e).2 }

/-- A naive wall-clock datetime as stored by the scheduler (now_ist strips
tzinfo); fields as in Python datetime. -/
structure DateTime where
  year : Nat
  month : Nat
  day : Nat
  hour : Nat
  minute : Nat
  second : Nat
  micro : Nat := 0
deriving Repr, DecidableEq

/-- Zero-pad a number to two digits, as strftime %m %d %H %M %S do. -/
def pad2 (n : Nat) : String :=
  if n < 10 then "0" ++ toString n else toString n

/-- Zero-pad a number to four digits, as strftime %Y does. -/
def pad4 (n : Nat) : String :=
  if n < 10 then "000" ++ toString n
  else if n < 100 then "00" ++ toString n
  else if n < 1000 then "0" ++ toString n
  else toString n

/-- now.strftime of the %Y%m%d%H%M%S pattern (app/scheduler.py line 315):
the wall-clock instant truncated to the whole second. -/
def strftimeYmdHMS (t : DateTime) : String :=
  pad4 t.year ++ pad2 t.month ++ pad2 t.day ++
    pad2 t.hour ++ pad2 t.minute ++ pad2 t.second

/-- The idempotency key built in SchedulerEngine._execute_schedule
(app/scheduler.py line 315). -/
def idempotencyKey (scheduleId : String) (now : DateTime) : String :=
  scheduleId ++ ":" ++ strftimeYmdHMS now

/-- The Run columns the scheduler-level code touches; app/models.py Run. -/
structure RunRow where
  schedule_id : String := ""
  status : RunStatus := RunStatus.pending
  scheduled_at : Option DateTime := Option.none
  idempotency_key : Option String := Option.none
  completed_at : Option DateTime := Option.none
  final_error_message : Option String := Option.none
deriving Repr, DecidableEq

/-- The run-creation step of SchedulerEngine._execute_schedule
(app/scheduler.py lines 312-335): build the idempotency key from the firing
instant, query existing Runs for it, return without inserting on a duplicate,
otherwise insert the new PENDING Run. -/
def createRunForFire (scheduleId : String) (now : DateTime)
    (existing : List RunRow) : Option RunRow :=
  let key := idempotencyKey scheduleId now
  if existing.any (fun r => decide (r.idempotency_key = some key)) then
    Option.none
  else some
    { schedule_id := scheduleId
      status := RunStatus.pending
      scheduled_at := some now
      idempotency_key := some key }

/-- Per-run action of SchedulerEngine._recover_orphaned_runs
(app/scheduler.py lines 149-170): the select picks runs with status in
(RUNNING, PENDING) and each is marked FAILED with the restart message. -/
def recoverOrphanedRun (now : DateTime) (r : RunRow) : RunRow :=
  if r.status = RunStatus.running ∨ r.status = RunStatus.pending then
    { r with
        status := RunStatus.failed
        completed_at := some now
        final_error_message :=
          some "Server restarted while run was in progress" }
  else r

/-- SchedulerEngine._recover_orphaned_runs over the whole runs table. -/
def recover_orphaned_runs (now : DateTime) (runs : List RunRow) :
    List RunRow :=
  runs.map (recoverOrphanedRun now)

/-- The Schedule columns resume_schedule touches; app/models.py Schedule. -/
structure ScheduleRow where
  id : String := ""
  status : ScheduleStatus := ScheduleStatus.active
  expires_at : Option DateTime := Option.none
  max_runs : Option Int := Option.none
  run_count : Int := 0
  next_run_at : Option DateTime := Option.none
deriving Repr, DecidableEq

/-- Outcome of resume_schedule: the updated schedule and whether an
APScheduler trigger was registered for it. -/
structure ResumeResult where
  schedule : ScheduleRow
  registered : Bool
deriving Repr, DecidableEq

/-- SchedulerEngine.resume_schedule (app/scheduler.py lines 236-249),
faithful to the source: line 239 reads `datetime.now_ist()`, and the datetime
class has no such attribute, so whenever expires_at is set (a datetime is
always truthy, so the conjunction does not short-circuit) the condition
raises AttributeError before any state change; this is modelled as the
Except error.  When expires_at is unset the window check short-circuits and
the max_runs check runs with Python truthiness (None and 0 are falsy).
`nextRun` is the value _calculate_next_run would return at this instant. -/
def resume_schedule (nextRun : Option DateTime) (s : ScheduleRow) :
    Except String ResumeResult :=
  match s.expires_at with
  | some _ =>
    Except.error
      "AttributeError: type object datetime.datetime has no attribute now_ist"
  | Option.none =>
    let maxRunsHit :=
      match s.max_runs with
      | some m => decide (m ≠ 0 ∧ s.run_count ≥ m)
      | Option.none => false
    if maxRunsHit then
      Except.ok
        { schedule := { s with status := ScheduleStatus.expired }
          registered := false }
    else
      Except.ok
        { schedule :=
            { s with status := ScheduleStatus.active, next_run_at := nextRun }
          registered := true }

/-- Modelled from the spec: the intent of SchedulerEngine.resume_schedule as
the surrounding code (lines 128, 295) and the spec word it, with the window
check comparing the current instant against expires_at via the module-level
now_ist() instead of the failing attribute lookup.  `nowBeforeExp e` decides
whether the current instant is still strictly before the expiry e. -/
def resume_schedule_intended (nowBeforeExp : DateTime → Bool)
    (nextRun : Option DateTime) (s : ScheduleRow) : ResumeResult :=
  let windowExpired :=
    match s.expires_at with
    | some e => !(nowBeforeExp e)
    | Option.none => false
  if windowExpired then
    { schedule := { s with status := ScheduleStatus.expired }
      registered := false }
  else
    let maxRunsHit :=
      match s.max_runs with
      | some m => decide (m ≠ 0 ∧ s.run_count ≥ m)
      | Option.none => false
    if maxRunsHit then
      { schedule := { s with status := ScheduleStatus.expired }
        registered := false }
    else
      { schedule :=
          { s with status := ScheduleStatus.active, next_run_at := nextRun }
        registered := true }

/-- The two Settings fields HttpExecutor.__init__ falls back to, with their
app/config.py defaults. -/
structure Settings where
  max_retries : Int := 3
  retry_delay_seconds : Rat := 1
deriving Repr, DecidableEq

/-- The process-wide settings instance (no environment overrides). -/
def settings : Settings := {}

/-- Python `x or d` on an optional int: None and 0 are falsy. -/
def pyOrInt (x : Option Int) (d : Int) : Int :=
  match x with
  | Option.none => d
  | some v => if v = 0 then d else v

/-- Python `x or d` on an optional float (0.0 and -0.0 are falsy). -/
def pyOrRat (x : Option Rat) (d : Rat) : Rat :=
  match x with
  | Option.none => d
  | some v => if v = 0 then d else v

/-- The configuration an HttpExecutor instance carries. -/
structure HttpExecutorCfg where
  max_retries : Int
  base_retry_delay : Rat
deriving Repr, DecidableEq

/-- HttpExecutor.__init__ (app/executor.py lines 91-94): truthiness-based
defaulting of both parameters against the settings. -/
def HttpExecutor.init (max_retries : Option Int)
    (base_retry_delay : Option Rat) : HttpExecutorCfg :=
  { max_retries := pyOrInt max_retries settings.max_retries
    base_retry_delay := pyOrRat base_retry_delay settings.retry_delay_seconds }

/-- A concrete timed-out attempt outcome, used to exercise the theorems on
closed inputs. -/
def timeoutAttempt : AttemptRow :=
  { error_type := ErrorType.timeout, error_message := some "Request timed out: x" }

/-- A concrete 404 attempt outcome, used to exercise the theorems on closed
inputs. -/
def notFoundAttempt : AttemptRow :=
  { error_type := ErrorType.client_error, status_code := some 404,
    error_message := some "HTTP 404" }

/-- A concrete 503 attempt outcome, used to exercise the theorems on closed
inputs. -/
def serverErrorAttempt : AttemptRow :=
  { error_type := ErrorType.server_error, status_code := some 503,
    error_message := some "HTTP 503" }

/-! Helper lemmas about the retry loop. -/

/-- A retryable outcome (neither NONE nor CLIENT_ERROR) makes the loop body
record the attempt count and recurse. -/
theorem runLoop_retryable_step (outcome : Nat → AttemptRow)
    (remaining attemptNum : Nat) (run : RunState) (last : Option AttemptRow)
    (h1 : (outcome attemptNum).error_type ≠ ErrorType.none)
    (h2 : (outcome attemptNum).error_type ≠ ErrorType.client_error) :
    runLoop outcome (remaining + 1) attemptNum run last =
      runLoop outcome remaining (attemptNum + 1)
        { run with attempt_count := attemptNum }
        (some (outcome attemptNum)) := by
  simp only [runLoop]
  rw [if_neg h1, if_neg h2]

/-- When every outcome in the window is retryable, the loop runs to
exhaustion: the status is untouched, the attempt count ends at the last
attempt number, and last_attempt is that outcome. -/
theorem runLoop_all_retryable (outcome : Nat → AttemptRow) :
    ∀ (remaining : Nat), 1 ≤ remaining →
    ∀ (attemptNum : Nat) (run : RunState) (last : Option AttemptRow),
    (∀ i, attemptNum ≤ i → i < attemptNum + remaining →
      (outcome i).error_type ≠ ErrorType.none ∧
      (outcome i).error_type ≠ ErrorType.client_error) →
    runLoop outcome remaining attemptNum run last =
      ({ run with attempt_count := attemptNum + remaining - 1 },
        some (outcome (attemptNum + remaining - 1))) := by
  intro remaining
  induction remaining with
  | zero => intro h; omega
  | succ r ih =>
    intro _ attemptNum run last hall
    obtain ⟨hne, hnc⟩ := hall attemptNum (le_refl _) (by omega)
    rw [runLoop_retryable_step outcome r attemptNum run last hne hnc]
    rcases Nat.eq_zero_or_pos r with h0 | hpos
    · subst h0
      simp only [runLoop]
      have harith : attemptNum + 1 - 1 = attemptNum := by omega
      rw [harith]
    · rw [ih hpos (attemptNum + 1) _ _
        (fun i hi1 hi2 => hall i (by omega) (by omega))]
      have harith : attemptNum + 1 + r - 1 = attemptNum + (r + 1) - 1 := by
        omega
      rw [harith]

/-- When the first CLIENT_ERROR outcome is at attempt k, preceded only by
retryable outcomes, the loop stops there with a FAILED run carrying the
final fields of that attempt. -/
theorem runLoop_client_stop (outcome : Nat → AttemptRow) :
    ∀ (remaining : Nat) (attemptNum : Nat) (run : RunState)
      (last : Option AttemptRow) (k : Nat),
    attemptNum ≤ k → k < attemptNum + remaining →
    (outcome k).error_type = ErrorType.client_error →
    (∀ i, attemptNum ≤ i → i < k →
      (outcome i).error_type ≠ ErrorType.none ∧
      (outcome i).error_type ≠ ErrorType.client_error) →
    runLoop outcome remaining attemptNum run last =
      ({ run with
           attempt_count := k,
           status := RunStatus.failed,
           final_status_code := (outcome k).status_code,
           final_error_type := (outcome k).error_type,
           final_error_message := (outcome k).error_message },
        some (outcome k)) := by
  intro remaining
  induction remaining with
  | zero => intro attemptNum run last k h1 h2; omega
  | succ r ih =>
    intro attemptNum run last k h1 h2 hce hpre
    rcases Nat.lt_or_ge attemptNum k with hlt | hge
    · obtain ⟨hne, hnc⟩ := hpre attemptNum (le_refl _) hlt
      rw [runLoop_retryable_step outcome r attemptNum run last hne hnc]
      rw [ih (attemptNum + 1) _ _ k (by omega) (by omega) hce
        (fun i hi1 hi2 => hpre i (by omega) hi2)]
    · have hk : k = attemptNum := by omega
      subst hk
      simp only [runLoop]
      rw [if_neg (by rw [hce]; intro h; cases h), if_pos hce]

/-- Claim C1: in execute_run, if the retry loop exits with the Run still
RUNNING (all max_retries attempts made without a SUCCESS or CLIENT_ERROR
break), the final status is TIMEOUT iff the last Attempt error kind is
TIMEOUT, otherwise FAILED, and the last Attempt status code, error kind and
error text are copied into the final_* fields of the Run. -/
theorem execute_run_exhaustion_final (maxRetries : Int) (tStart tEnd : Rat)
    (outcome : Nat → AttemptRow)
    (hmr : 1 ≤ maxRetries)
    (hall : ∀ i, 1 ≤ i → i ≤ maxRetries.toNat →
      (outcome i).error_type ≠ ErrorType.none ∧
      (outcome i).error_type ≠ ErrorType.client_error) :
    ((execute_run maxRetries tStart tEnd outcome).status = RunStatus.timeout
      ↔ (outcome maxRetries.toNat).error_type = ErrorType.timeout) ∧
    ((outcome maxRetries.toNat).error_type ≠ ErrorType.timeout →
      (execute_run maxRetries tStart tEnd outcome).status =
        RunStatus.failed) ∧
    (execute_run maxRetries tStart tEnd outcome).final_status_code =
      (outcome maxRetries.toNat).status_code ∧
    (execute_run maxRetries tStart tEnd outcome).final_error_type =
      (outcome maxRetries.toNat).error_type ∧
    (execute_run maxRetries tStart tEnd outcome).final_error_message =
      (outcome maxRetries.toNat).error_message ∧
    (execute_run maxRetries tStart tEnd outcome).attempt_count =
      maxRetries.toNat := by
  have htn : 1 ≤ maxRetries.toNat := by omega
  have hloop := runLoop_all_retryable outcome maxRetries.toNat htn 1
    { status := RunStatus.running, started_at := some tStart }
    Option.none
    (fun i hi1 hi2 => hall i hi1 (by omega))
  have harith : 1 + maxRetries.toNat - 1 = maxRetries.toNat := by omega
  rw [harith] at hloop
  simp only [execute_run]
  rw [hloop]
  by_cases ht : (outcome maxRetries.toNat).error_type = ErrorType.timeout
  · simp [ht]
  · simp [ht]

/-- Witness for C1: three timed-out attempts with max_retries = 3 end in a
TIMEOUT run whose final error kind is TIMEOUT. -/
theorem execute_run_exhaustion_final_witness :
    (execute_run 3 0 1 (fun _ => timeoutAttempt)).status = RunStatus.timeout ∧
    (execute_run 3 0 1 (fun _ => timeoutAttempt)).final_error_type =
      ErrorType.timeout ∧
    (execute_run 3 0 1 (fun _ => timeoutAttempt)).attempt_count = 3 := by
  have h := execute_run_exhaustion_final 3 0 1 (fun _ => timeoutAttempt)
    (by decide) (fun i _ _ => ⟨by simp [timeoutAttempt], by simp [timeoutAttempt]⟩)
  exact ⟨h.1.mpr (by decide), h.2.2.2.1, h.2.2.2.2.2⟩

/-- Claim C2: a CLIENT_ERROR attempt makes execute_run stop immediately with
a FAILED run carrying that attempt status code, error kind and message, and
no further attempts are made; the retried kinds are exactly TIMEOUT, DNS,
CONNECTION, SSL, SERVER_ERROR and UNKNOWN (all kinds other than NONE and the
non-retryable CLIENT_ERROR). -/
theorem execute_run_client_error_stops (maxRetries : Int) (tStart tEnd : Rat)
    (outcome : Nat → AttemptRow) (k : Nat)
    (hk1 : 1 ≤ k) (hk2 : k ≤ maxRetries.toNat)
    (hce : (outcome k).error_type = ErrorType.client_error)
    (hpre : ∀ i, 1 ≤ i → i < k →
      (outcome i).error_type ≠ ErrorType.none ∧
      (outcome i).error_type ≠ ErrorType.client_error) :
    ((execute_run maxRetries tStart tEnd outcome).status = RunStatus.failed ∧
     (execute_run maxRetries tStart tEnd outcome).final_status_code =
       (outcome k).status_code ∧
     (execute_run maxRetries tStart tEnd outcome).final_error_type =
       ErrorType.client_error ∧
     (execute_run maxRetries tStart tEnd outcome).final_error_message =
       (outcome k).error_message ∧
     (execute_run maxRetries tStart tEnd outcome).attempt_count = k) ∧
    (∀ e : ErrorType,
      (e ≠ ErrorType.none ∧ e ≠ ErrorType.client_error) ↔
        (e = ErrorType.timeout ∨ e = ErrorType.dns ∨
         e = ErrorType.connection ∨ e = ErrorType.ssl ∨
         e = ErrorType.server_error ∨ e = ErrorType.unknown)) := by
  constructor
  · have hloop := runLoop_client_stop outcome maxRetries.toNat 1
      { status := RunStatus.running, started_at := some tStart }
      Option.none k hk1 (by omega) hce
      (fun i hi1 hi2 => hpre i hi1 hi2)
    simp only [execute_run]
    rw [hloop]
    simp [hce]
  · intro e
    cases e <;> simp

/-- Witness for C2: with max_retries = 3, a 503 then a 404 stop the run at
attempt 2 as FAILED with the 404 finals. -/
theorem execute_run_client_error_stops_witness :
    (execute_run 3 0 1
      (fun i => if i = 1 then serverErrorAttempt else notFoundAttempt)).status =
        RunStatus.failed ∧
    (execute_run 3 0 1
      (fun i => if i = 1 then serverErrorAttempt else notFoundAttempt)).final_status_code =
        some 404 ∧
    (execute_run 3 0 1
      (fun i => if i = 1 then serverErrorAttempt else notFoundAttempt)).attempt_count =
        2 := by
  have h := execute_run_client_error_stops 3 0 1
    (fun i => if i = 1 then serverErrorAttempt else notFoundAttempt) 2
    (by decide) (by decide)
    (by simp [notFoundAttempt])
    (fun i hi1 hi2 => by
      have : i = 1 := by omega
      subst this
      exact ⟨by simp [serverErrorAttempt], by simp [serverErrorAttempt]⟩)
  exact ⟨h.1.1, by rw [h.1.2.1]; simp [notFoundAttempt], h.1.2.2.2.2⟩

/-- Two instants with equal whole-second fields format identically under
the %Y%m%d%H%M%S pattern, whatever their microseconds. -/
theorem strftime_eq_of_same_second (t1 t2 : DateTime)
    (hy : t1.year = t2.year) (hmo : t1.month = t2.month)
    (hd : t1.day = t2.day) (hh : t1.hour = t2.hour)
    (hmi : t1.minute = t2.minute) (hs : t1.second = t2.second) :
    strftimeYmdHMS t1 = strftimeYmdHMS t2 := by
  unfold strftimeYmdHMS
  rw [hy, hmo, hd, hh, hmi, hs]

/-- Claim C3: the fire handler builds the idempotency key
scheduleId:YYYYMMDDHHMMSS for the firing instant; a Run inserted by it
carries exactly that key; if a Run with the key already exists nothing is
inserted; and hence a second firing within the same wall-clock second of an
earlier successful insert is suppressed, so each schedule gets at most one
Run per wall-second. -/
theorem fire_run_idempotency (s : String) (t1 t2 : DateTime)
    (E : List RunRow) (r : RunRow) :
    (∀ rr, createRunForFire s t1 E = some rr →
      rr.idempotency_key = some (idempotencyKey s t1) ∧
      rr.schedule_id = s ∧ rr.status = RunStatus.pending ∧
      rr.scheduled_at = some t1) ∧
    ((∃ rr ∈ E, rr.idempotency_key = some (idempotencyKey s t1)) →
      createRunForFire s t1 E = Option.none) ∧
    (t1.year = t2.year → t1.month = t2.month → t1.day = t2.day →
     t1.hour = t2.hour → t1.minute = t2.minute → t1.second = t2.second →
     createRunForFire s t1 E = some r →
     createRunForFire s t2 (r :: E) = Option.none) := by
  refine ⟨?_, ?_, ?_⟩
  · intro rr h
    by_cases hc : E.any
        (fun q => decide (q.idempotency_key = some (idempotencyKey s t1)))
    · simp only [createRunForFire, idempotencyKey] at h
      rw [if_pos (by simpa [idempotencyKey] using hc)] at h
      exact absurd h (by simp)
    · simp only [createRunForFire, idempotencyKey] at h
      rw [if_neg (by simpa [idempotencyKey] using hc)] at h
      obtain rfl : _ = rr := Option.some.inj h
      exact ⟨rfl, rfl, rfl, rfl⟩
  · intro hex
    have hany : E.any
        (fun q => decide (q.idempotency_key = some (idempotencyKey s t1))) := by
      rw [List.any_eq_true]
      obtain ⟨rr, hmem, hkey⟩ := hex
      exact ⟨rr, hmem, by simp [hkey]⟩
    simp only [createRunForFire, idempotencyKey] at hany ⊢
    rw [if_pos hany]
  · intro hy hmo hd hh hmi hs hins
    have hkeys : idempotencyKey s t2 = idempotencyKey s t1 := by
      unfold idempotencyKey
      rw [strftime_eq_of_same_second t2 t1 hy.symm hmo.symm hd.symm hh.symm
        hmi.symm hs.symm]
    have hrkey : r.idempotency_key = some (idempotencyKey s t1) := by
      by_cases hc : E.any
          (fun q => decide (q.idempotency_key = some (idempotencyKey s t1)))
      · simp only [createRunForFire, idempotencyKey] at hins
        rw [if_pos (by simpa [idempotencyKey] using hc)] at hins
        exact absurd hins (by simp)
      · simp only [createRunForFire, idempotencyKey] at hins
        rw [if_neg (by simpa [idempotencyKey] using hc)] at hins
        obtain rfl : _ = r := Option.some.inj hins
        rfl
    have hany : (r :: E).any
        (fun q => decide (q.idempotency_key = some (idempotencyKey s t2))) := by
      rw [List.any_eq_true]
      exact ⟨r, List.mem_cons_self r E, by simp [hrkey, hkeys]⟩
    simp only [createRunForFire, idempotencyKey] at hany ⊢
    rw [if_pos hany]

/-- Witness for C3: two firings of schedule sch-1 within second
2026-10-12 09:30:15 (microseconds 250 and 750000); the first inserts the Run
with key sch-1:20261012093015, the second is suppressed. -/
theorem fire_run_idempotency_witness :
    createRunForFire "sch-1" ⟨2026, 10, 12, 9, 30, 15, 250⟩ [] =
      some { schedule_id := "sch-1", status := RunStatus.pending,
             scheduled_at := some ⟨2026, 10, 12, 9, 30, 15, 250⟩,
             idempotency_key := some "sch-1:20261012093015" } ∧
    createRunForFire "sch-1" ⟨2026, 10, 12, 9, 30, 15, 750000⟩
      [{ schedule_id := "sch-1", status := RunStatus.pending,
         scheduled_at := some ⟨2026, 10, 12, 9, 30, 15, 250⟩,
         idempotency_key := some "sch-1:20261012093015" }] = Option.none := by
  have h1 : createRunForFire "sch-1" ⟨2026, 10, 12, 9, 30, 15, 250⟩ [] =
      some { schedule_id := "sch-1", status := RunStatus.pending,
             scheduled_at := some ⟨2026, 10, 12, 9, 30, 15, 250⟩,
             idempotency_key := some "sch-1:20261012093015" } := by decide
  refine ⟨h1, ?_⟩
  exact (fire_run_idempotency "sch-1" ⟨2026, 10, 12, 9, 30, 15, 250⟩
    ⟨2026, 10, 12, 9, 30, 15, 750000⟩ []
    { schedule_id := "sch-1", status := RunStatus.pending,
      scheduled_at := some ⟨2026, 10, 12, 9, 30, 15, 250⟩,
      idempotency_key := some "sch-1:20261012093015" }).2.2
    rfl rfl rfl rfl rfl rfl h1

/-- Claim C4 (code bug evidence): resume_schedule on any schedule whose
expires_at is set raises AttributeError before touching the schedule,
because line 239 of app/scheduler.py looks up datetime.now_ist, which does
not exist; the claimed EXPIRED/ACTIVE outcome is unreachable for such
schedules.  Evaluated here on a paused schedule whose window expired long
ago and, for contrast, on the same schedule without a window, where the
claimed behaviour does hold. -/
theorem resume_schedule_attribute_error :
    resume_schedule Option.none
      { id := "sch-1", status := ScheduleStatus.paused,
        expires_at := some ⟨2020, 1, 1, 0, 0, 0, 0⟩,
        max_runs := Option.none, run_count := 0,
        next_run_at := Option.none } =
      Except.error
        "AttributeError: type object datetime.datetime has no attribute now_ist" ∧
    resume_schedule Option.none
      { id := "sch-1", status := ScheduleStatus.paused,
        expires_at := Option.none, max_runs := some 3, run_count := 3,
        next_run_at := Option.none } =
      Except.ok
        { schedule :=
            { id := "sch-1", status := ScheduleStatus.expired,
              expires_at := Option.none, max_runs := some 3, run_count := 3,
              next_run_at := Option.none }
          registered := false } := by
  exact ⟨rfl, rfl⟩

/-- Claim C5: the orphan sweep turns every PENDING or RUNNING run into a
FAILED run with completed_at = now and the restart message, and leaves every
other run unchanged. -/
theorem recover_orphaned_runs_spec (now : DateTime) (runs : List RunRow)
    (r : RunRow) (hmem : r ∈ runs) :
    recoverOrphanedRun now r ∈ recover_orphaned_runs now runs ∧
    (r.status = RunStatus.pending ∨ r.status = RunStatus.running →
      recoverOrphanedRun now r =
        { r with
            status := RunStatus.failed,
            completed_at := some now,
            final_error_message :=
              some "Server restarted while run was in progress" }) ∧
    (r.status ≠ RunStatus.pending ∧ r.status ≠ RunStatus.running →
      recoverOrphanedRun now r = r) := by
  refine ⟨List.mem_map_of_mem _ hmem, ?_, ?_⟩
  · intro hst
    unfold recoverOrphanedRun
    rw [if_pos (by tauto)]
  · intro hst
    unfold recoverOrphanedRun
    rw [if_neg (by tauto)]

/-- Witness for C5: a RUNNING run in a one-element table is marked FAILED
with the restart message, completed at the sweep instant. -/
theorem recover_orphaned_runs_spec_witness :
    recoverOrphanedRun ⟨2026, 1, 1, 0, 0, 0, 0⟩
        { schedule_id := "sch-1", status := RunStatus.running } =
      { schedule_id := "sch-1", status := RunStatus.failed,
        completed_at := some ⟨2026, 1, 1, 0, 0, 0, 0⟩,
        final_error_message :=
          some "Server restarted while run was in progress" } := by
  have h := recover_orphaned_runs_spec ⟨2026, 1, 1, 0, 0, 0, 0⟩
    [{ schedule_id := "sch-1", status := RunStatus.running }]
    { schedule_id := "sch-1", status := RunStatus.running }
    (List.mem_singleton.mpr rfl)
  exact h.2.1 (Or.inr rfl)

/-- Claim C6: classify_status_code returns NONE on [200,400), CLIENT_ERROR
on [400,500), SERVER_ERROR on [500,600) and UNKNOWN on every other integer. -/
theorem classify_status_code_buckets (n : Int) :
    (200 ≤ n ∧ n < 400 → classify_status_code n = ErrorType.none) ∧
    (400 ≤ n ∧ n < 500 → classify_status_code n = ErrorType.client_error) ∧
    (500 ≤ n ∧ n < 600 → classify_status_code n = ErrorType.server_error) ∧
    (¬(200 ≤ n ∧ n < 600) → classify_status_code n = ErrorType.unknown) := by
  refine ⟨?_, ?_, ?_, ?_⟩ <;> intro h <;> unfold classify_status_code
  · rw [if_pos h]
  · rw [if_neg (by omega), if_pos h]
  · rw [if_neg (by omega), if_neg (by omega), if_pos h]
  · rw [if_neg (by omega), if_neg (by omega), if_neg (by omega)]

/-- Witness for C6: one code from each bucket, including a negative one. -/
theorem classify_status_code_buckets_witness :
    classify_status_code 204 = ErrorType.none ∧
    classify_status_code 404 = ErrorType.client_error ∧
    classify_status_code 503 = ErrorType.server_error ∧
    classify_status_code (-1) = ErrorType.unknown :=
  ⟨(classify_status_code_buckets 204).1 (by decide),
   (classify_status_code_buckets 404).2.1 (by decide),
   (classify_status_code_buckets 503).2.2.1 (by decide),
   (classify_status_code_buckets (-1)).2.2.2 (by decide)⟩

/-- Claim C7: for every attempt number n ≥ 1 and base delay b > 0, the
backoff delay before the next retry is min(b * 2 ^ (n - 1), 30), with the
natural-number exponent n - 1. -/
theorem calculate_backoff_delay_formula (n : Int) (b : Rat)
    (hn : 1 ≤ n) (hb : 0 < b) :
    calculate_backoff_delay n b 30 =
      min (b * (2 : Rat) ^ (n - 1).toNat) 30 := by
  unfold calculate_backoff_delay
  rw [show (2 : Rat) ^ (n - 1) = (2 : Rat) ^ (n - 1).toNat by
    rw [← Int.toNat_of_nonneg (a := n - 1) (by omega)]
    exact zpow_natCast 2 (n - 1).toNat]

/-- Witness for C7: attempt 3 with base delay 1 gives min(1 * 4, 30) = 4. -/
theorem calculate_backoff_delay_formula_witness :
    calculate_backoff_delay 3 1 30 = min ((1 : Rat) * 2 ^ (2 : Nat)) 30 := by
  have h := calculate_backoff_delay_formula 3 1 (by decide) (by norm_num)
  simpa using h

/-- Claim C8: with a Content-Length header that is absent or numeric (the
only forms the HTTP client delivers), _safe_read_body stores the oversize
marker when the header value exceeds 100 KiB, and otherwise stores the
decoded text, truncating it at 100 KiB with the truncation marker. -/
theorem safe_read_body_truncation (optCl : Option String) (body : String) :
    (∀ cl n, optCl = some cl → pyInt cl = some n →
      (MAX_RESPONSE_BODY_SIZE : Int) < n →
      safe_read_body optCl body =
        some ("[Response truncated - size " ++ cl ++
          " bytes exceeds limit]")) ∧
    (∀ cl n, optCl = some cl → pyInt cl = some n →
      n ≤ (MAX_RESPONSE_BODY_SIZE : Int) →
      safe_read_body optCl body = truncateBody body) ∧
    (optCl = Option.none → safe_read_body optCl body = truncateBody body) ∧
    (body.length ≤ MAX_RESPONSE_BODY_SIZE → truncateBody body = some body) ∧
    (MAX_RESPONSE_BODY_SIZE < body.length →
      truncateBody body =
        some (body.take MAX_RESPONSE_BODY_SIZE ++ "\n[...truncated...]")) := by
  refine ⟨?_, ?_, ?_, ?_, ?_⟩
  · intro cl n hcl hpi hgt
    subst hcl
    have hne : cl ≠ "" := by
      intro h
      subst h
      exact absurd hpi (by rw [show pyInt "" = Option.none from rfl]; simp)
    simp only [safe_read_body]
    rw [if_neg hne, hpi]
    exact if_pos hgt
  · intro cl n hcl hpi hle
    subst hcl
    have hne : cl ≠ "" := by
      intro h
      subst h
      exact absurd hpi (by rw [show pyInt "" = Option.none from rfl]; simp)
    simp only [safe_read_body]
    rw [if_neg hne, hpi]
    exact if_neg (not_lt.mpr hle)
  · intro hcl
    subst hcl
    rfl
  · intro hle
    unfold truncateBody
    rw [if_neg (not_lt.mpr hle)]
  · intro hgt
    unfold truncateBody
    rw [if_pos hgt]

/-- Witness for C8: a 200000-byte Content-Length yields the oversize marker
without using the body; a Content-Length of 5 with a short body stores the
body whole. -/
theorem safe_read_body_truncation_witness :
    safe_read_body (some "200000") "hi" =
      some "[Response truncated - size 200000 bytes exceeds limit]" ∧
    safe_read_body (some "5") "hi" = some "hi" := by
  constructor
  · have h := (safe_read_body_truncation (some "200000") "hi").1 "200000"
      200000 rfl (by decide) (by decide)
    rw [h]
    rfl
  · have h := (safe_read_body_truncation (some "5") "hi").2.1 "5" 5 rfl
      (by decide) (by decide)
    rw [h]
    exact (safe_read_body_truncation (some "5") "hi").2.2.2.1 (by decide)

/-- Counterexample to claim C9 as stated: for the attempt built by
_execute_attempt around a request that raised (a timeout at instant 5,
started at instant 0), started_at and completed_at are both set, yet
latency_ms is left unset rather than equal to their difference in
milliseconds: the except branch at app/executor.py lines 250-252 sets
completed_at and the error fields only. -/
theorem execute_attempt_latency_counterexample :
    (execute_attempt 1 0 0 5
      (HttpResult.exc (PyExc.timeoutExc "x"))).started_at = 0 ∧
    (execute_attempt 1 0 0 5
      (HttpResult.exc (PyExc.timeoutExc "x"))).completed_at = some 5 ∧
    (execute_attempt 1 0 0 5
      (HttpResult.exc (PyExc.timeoutExc "x"))).latency_ms = Option.none ∧
    (execute_attempt 1 0 0 5
      (HttpResult.exc (PyExc.timeoutExc "x"))).latency_ms ≠
      some ((5 - 0) * 1000) := by
  refine ⟨rfl, rfl, rfl, ?_⟩
  intro h
  rw [show (execute_attempt 1 0 0 5
    (HttpResult.exc (PyExc.timeoutExc "x"))).latency_ms = Option.none
    from rfl] at h
  exact Option.noConfusion h

/-- Claim C9 amended: an attempt that received a response has
completed_at = end_time and latency_ms = (end_time - start_time) * 1000,
where start_time is the instant captured just before the request was issued
(not the earlier started_at of the Attempt row); an attempt whose request
raised an exception has completed_at set but latency_ms left unset. -/
theorem execute_attempt_latency_amended (n : Nat) (t0 t1 t2 : Rat)
    (code : Int) (cl : Option String) (body : String) (e : PyExc) :
    ((execute_attempt n t0 t1 t2 (HttpResult.ok code cl body)).latency_ms =
        some ((t2 - t1) * 1000) ∧
     (execute_attempt n t0 t1 t2 (HttpResult.ok code cl body)).completed_at =
        some t2 ∧
     (execute_attempt n t0 t1 t2 (HttpResult.ok code cl body)).started_at =
        t0) ∧
    ((execute_attempt n t0 t1 t2 (HttpResult.exc e)).latency_ms =
        Option.none ∧
     (execute_attempt n t0 t1 t2 (HttpResult.exc e)).completed_at = some t2 ∧
     (execute_attempt n t0 t1 t2 (HttpResult.exc e)).started_at = t0) :=
  ⟨⟨rfl, rfl, rfl⟩, rfl, rfl, rfl⟩

/-- The retry loop never leaves the attempt count below the attempt number
it entered with, once at least one iteration is allowed. -/
theorem runLoop_attempt_count_ge (outcome : Nat → AttemptRow) :
    ∀ (remaining : Nat), 1 ≤ remaining →
    ∀ (attemptNum : Nat) (run : RunState) (last : Option AttemptRow),
    attemptNum ≤
      (runLoop outcome remaining attemptNum run last).1.attempt_count := by
  intro remaining
  induction remaining with
  | zero => intro h; omega
  | succ r ih =>
    intro _ attemptNum run last
    simp only [runLoop]
    by_cases h1 : (outcome attemptNum).error_type = ErrorType.none
    · rw [if_pos h1]
    · rw [if_neg h1]
      by_cases h2 : (outcome attemptNum).error_type = ErrorType.client_error
      · rw [if_pos h2]
      · rw [if_neg h2]
        rcases Nat.eq_zero_or_pos r with h0 | hp
        · subst h0
          simp only [runLoop]
          exact le_refl _
        · exact le_trans (by omega) (ih hp (attemptNum + 1) _ _)

/-- The final bookkeeping of execute_run never changes the attempt count
recorded by the loop. -/
theorem execute_run_attempt_count_eq (maxRetries : Int) (tStart tEnd : Rat)
    (outcome : Nat → AttemptRow) :
    (execute_run maxRetries tStart tEnd outcome).attempt_count =
      (runLoop outcome maxRetries.toNat 1
        { status := RunStatus.running, started_at := some tStart }
        Option.none).1.attempt_count := by
  simp only [execute_run]
  split
  · split <;> rfl
  · rfl

/-- Counterexample to claim C10 as stated: a negative max_retries argument
is truthy, so the constructor keeps it, and execute_run then iterates
range(1, 0), making zero attempts: the executor can be configured through
its constructor to make zero attempts. -/
theorem init_negative_max_retries_counterexample :
    (HttpExecutor.init (some (-1)) Option.none).max_retries = -1 ∧
    (execute_run (HttpExecutor.init (some (-1)) Option.none).max_retries 0 1
      (fun _ => timeoutAttempt)).attempt_count = 0 ∧
    (execute_run (HttpExecutor.init (some (-1)) Option.none).max_retries 0 1
      (fun _ => timeoutAttempt)).status = RunStatus.failed :=
  ⟨rfl, rfl, rfl⟩

/-- Claim C10 amended: passing max_retries=0 or base_retry_delay=0.0 (or
omitting them) silently substitutes the configured defaults 3 and 1.0s
because __init__ tests truthiness, so neither field can be configured to 0
and the computed backoff delay is never 0; however negative max_retries
values are truthy and kept, and they make execute_run perform zero attempts,
while any positive max_retries forces at least one attempt. -/
theorem init_truthiness_defaults (mr : Option Int) (brd : Option Rat) :
    (HttpExecutor.init (some 0) brd).max_retries = 3 ∧
    (HttpExecutor.init Option.none brd).max_retries = 3 ∧
    (HttpExecutor.init mr (some 0)).base_retry_delay = 1 ∧
    (HttpExecutor.init mr Option.none).base_retry_delay = 1 ∧
    (HttpExecutor.init mr brd).max_retries ≠ 0 ∧
    (HttpExecutor.init mr brd).base_retry_delay ≠ 0 ∧
    (∀ n : Int,
      calculate_backoff_delay n (HttpExecutor.init mr brd).base_retry_delay
        30 ≠ 0) ∧
    ((HttpExecutor.init mr brd).max_retries < 0 →
      ∀ (tS tE : Rat) (outcome : Nat → AttemptRow),
      (execute_run (HttpExecutor.init mr brd).max_retries tS tE
        outcome).attempt_count = 0) ∧
    (0 < (HttpExecutor.init mr brd).max_retries →
      ∀ (tS tE : Rat) (outcome : Nat → AttemptRow),
      (execute_run (HttpExecutor.init mr brd).max_retries tS tE
        outcome).attempt_count ≠ 0) := by
  have hmr : (HttpExecutor.init mr brd).max_retries ≠ 0 := by
    rcases mr with _ | v
    · simp [HttpExecutor.init, pyOrInt, settings]
    · by_cases hv : v = 0
      · subst hv
        simp [HttpExecutor.init, pyOrInt, settings]
      · simp [HttpExecutor.init, pyOrInt, settings, hv]
  have hbrd : (HttpExecutor.init mr brd).base_retry_delay ≠ 0 := by
    rcases brd with _ | v
    · simp [HttpExecutor.init, pyOrRat, settings]
    · by_cases hv : v = 0
      · subst hv
        simp [HttpExecutor.init, pyOrRat, settings]
      · simp [HttpExecutor.init, pyOrRat, settings, hv]
  refine ⟨rfl, rfl, ?_, ?_, hmr, hbrd, ?_, ?_, ?_⟩
  · simp [HttpExecutor.init, pyOrRat, settings]
  · rfl
  · intro n h0
    have hpow : (2 : Rat) ^ (n - 1) ≠ 0 := zpow_ne_zero _ two_ne_zero
    have hmul : (HttpExecutor.init mr brd).base_retry_delay *
        (2 : Rat) ^ (n - 1) ≠ 0 := mul_ne_zero hbrd hpow
    rcases min_choice ((HttpExecutor.init mr brd).base_retry_delay *
        (2 : Rat) ^ (n - 1)) (30 : Rat) with h | h
    · rw [calculate_backoff_delay, h] at h0
      exact hmul h0
    · rw [calculate_backoff_delay, h] at h0
      norm_num at h0
  · intro hneg tS tE outcome
    rw [execute_run_attempt_count_eq]
    have h0 : (HttpExecutor.init mr brd).max_retries.toNat = 0 := by omega
    rw [h0]
    rfl
  · intro hpos tS tE outcome
    rw [execute_run_attempt_count_eq]
    have h1 : 1 ≤ (HttpExecutor.init mr brd).max_retries.toNat := by omega
    have := runLoop_attempt_count_ge outcome
      (HttpExecutor.init mr brd).max_retries.toNat h1 1
      { status := RunStatus.running, started_at := some tS } Option.none
    omega

/-- Witness for C10 amended: with max_retries=2 and base_retry_delay=0.0
(substituted by 1.0), a run over timing-out attempts makes two attempts,
never zero. -/
theorem init_truthiness_defaults_witness :
    (HttpExecutor.init (some 2) (some 0)).base_retry_delay = 1 ∧
    (execute_run (HttpExecutor.init (some 2) (some 0)).max_retries 0 1
      (fun _ => timeoutAttempt)).attempt_count ≠ 0 := by
  refine ⟨(init_truthiness_defaults (some 2) (some 0)).2.2.1, ?_⟩
  exact (init_truthiness_defaults (some 2) (some 0)).2.2.2.2.2.2.2.2
    (by decide) 0 1 (fun _ => timeoutAttempt)

end CronScheduler
